import Mathlib

/-!
Shallow embedding of the lapin AMQP 0-9-1 client core: the sans-I/O
connection state machine of `src/async/src/connection.rs` and the
confirmation future adapter of `src/futures/src/confirmation.rs`.

Rust mutable state is rendered as explicit state passing: a method that
mutates `self` becomes a Lean function returning the updated `Connection`
(paired with the Rust return value where there is one).  Machine integers
(`u16`, `u32`) become `Nat`; the negotiation logic only compares values and
substitutes the constants `u16::MAX` / `u32::MAX`, so no wraparound occurs.
The external frame codec (crate `amq_protocol`) is passed in as an explicit
function parameter where `connection.rs` calls it (`gen_frame`,
`parse_frame`), matching the sans-I/O design; its possible outcomes are
embedded as the `GenError` / `ParseResult` types.
-/

/-- AMQPValue: the subset of AMQP field-table values used by
`connection.rs` (`AMQPValue::LongString`, `AMQPValue::Boolean`,
`AMQPValue::FieldTable`). -/
inductive AMQPValue : Type where
  | LongString : String → AMQPValue
  | Boolean : Bool → AMQPValue
  | FieldTable : List (String × AMQPValue) → AMQPValue

/-- FieldTable: a string-keyed map of AMQP values (Rust
`BTreeMap<String, AMQPValue>`), embedded as an association list. -/
abbrev FieldTable := List (String × AMQPValue)

/-- Membership test mirroring `BTreeMap::contains_key`. -/
def FieldTable.containsKey (t : FieldTable) (k : String) : Bool :=
  t.any (fun e => e.1 == k)

/-- Insertion mirroring `BTreeMap::insert`: replace the value when the key
is present, otherwise add the binding. -/
def FieldTable.insert (t : FieldTable) (k : String) (v : AMQPValue) : FieldTable :=
  if FieldTable.containsKey t k then
    t.map (fun e => if e.1 == k then (k, v) else e)
  else
    t ++ [(k, v)]

/-- ConnectionSASLMechanism from `connection.rs` (single variant). -/
inductive ConnectionSASLMechanism : Type where
  | PLAIN
deriving DecidableEq

/-- Display impl of `ConnectionSASLMechanism` (`write!(f, "{:?}", self)`). -/
def ConnectionSASLMechanism.toString : ConnectionSASLMechanism → String
  | .PLAIN => "PLAIN"

/-- ConnectionProperties from `connection.rs`. -/
structure ConnectionProperties : Type where
  mechanism : ConnectionSASLMechanism
  locale : String
  client_properties : FieldTable

/-- Credentials from `connection.rs`. -/
structure Credentials : Type where
  username : String
  password : String
deriving DecidableEq

/-- Default credentials (`impl Default for Credentials`): guest/guest. -/
def Credentials.default : Credentials := ⟨"guest", "guest"⟩

/-- Payload of `Connection.Start` (fields read by `connection.rs`). -/
structure StartMethod : Type where
  mechanisms : String
  locales : String
deriving DecidableEq

/-- Payload of `Connection.StartOk` as built by `connection.rs`. -/
structure StartOkMethod : Type where
  client_properties : FieldTable
  mechanism : String
  locale : String
  response : String

/-- Payload of `Connection.Tune` (fields read by `connection.rs`). -/
structure TuneMethod : Type where
  channel_max : Nat
  frame_max : Nat
  heartbeat : Nat
deriving DecidableEq

/-- Payload of `Connection.TuneOk` as built by `connection.rs`. -/
structure TuneOkMethod : Type where
  channel_max : Nat
  frame_max : Nat
  heartbeat : Nat
deriving DecidableEq

/-- Payload of `Connection.Open` as built by `connection.rs`. -/
structure OpenMethod : Type where
  virtual_host : String
deriving DecidableEq

/-- Connection-class methods (`amq_protocol::protocol::connection::AMQPMethod`),
covering every constructor `handle_global_method` can receive; methods whose
payload `connection.rs` never inspects carry none. -/
inductive ConnectionMethod : Type where
  | Start : StartMethod → ConnectionMethod
  | StartOk : StartOkMethod → ConnectionMethod
  | Secure : ConnectionMethod
  | SecureOk : ConnectionMethod
  | Tune : TuneMethod → ConnectionMethod
  | TuneOk : TuneOkMethod → ConnectionMethod
  | Open : OpenMethod → ConnectionMethod
  | OpenOk : ConnectionMethod
  | Close : ConnectionMethod
  | CloseOk : ConnectionMethod

/-- AMQPClass (`amq_protocol::protocol::AMQPClass`): the `Connection` class
is embedded in full; all non-connection classes (Basic, Channel, Exchange,
...), whose payloads `handle_global_method` never inspects, are one
constructor. -/
inductive AMQPClass : Type where
  | Connection : ConnectionMethod → AMQPClass
  | OtherClass : AMQPClass

/-- Content header (`AMQPContentHeader`): fields routed by `handle_frame`.
Properties are elided since `connection.rs` only forwards them. -/
structure AMQPContentHeader : Type where
  body_size : Nat
deriving DecidableEq

/-- AMQPFrame from `amq_protocol::frame`. -/
inductive AMQPFrame : Type where
  | ProtocolHeader : AMQPFrame
  | Method : Nat → AMQPClass → AMQPFrame
  | Header : Nat → Nat → AMQPContentHeader → AMQPFrame
  | Body : Nat → List Nat → AMQPFrame
  | Heartbeat : Nat → AMQPFrame

/-- ConnectingState from `connection.rs`. -/
inductive ConnectingState : Type where
  | Initial
  | SentProtocolHeader : ConnectionProperties → ConnectingState
  | ReceivedStart
  | SentStartOk
  | ReceivedTune
  | SentTuneOk
  | SentOpen
  | ReceivedSecure
  | SentSecure
  | ReceivedSecondSecure
  | Error

/-- ClosingState from `connection.rs`. -/
inductive ClosingState : Type where
  | Initial
  | SentClose
  | ReceivedClose
  | SentCloseOk
  | ReceivedCloseOk
  | Error
deriving DecidableEq

/-- ConnectionState from `connection.rs`. -/
inductive ConnectionState : Type where
  | Initial
  | Connecting : ConnectingState → ConnectionState
  | Connected
  | Closing : ClosingState → ConnectionState
  | Closed
  | Error

/-- Modelled from the spec: `Configuration` (file `configuration.rs` is not
part of the examined sources) is the mutable tuple of negotiated limits
`{channel_max: u16, frame_max: u32, heartbeat: u16}` with plain accessors
(`channel_max()` / `set_channel_max(..)` and likewise for the others),
embedded as record field reads and updates. -/
structure Configuration : Type where
  channel_max : Nat
  frame_max : Nat
  heartbeat : Nat
deriving DecidableEq

/-- Error kinds of `std::io::ErrorKind` used by `connection.rs`. -/
inductive IOErrorKind : Type where
  | Other
  | InvalidData
  | WouldBlock
deriving DecidableEq

/-- GenError from the frame codec (`amq_protocol::frame::GenError`). -/
inductive GenError : Type where
  | BufferTooSmall : Nat → GenError
  | InvalidOffset
  | CustomError
  | NotYetImplemented
deriving DecidableEq

/-- Outcome of the codec's `parse_frame` on a byte slice, as consumed by
`Connection::parse`: success with the byte count consumed and the frame,
an incomplete input, or a fatal parse error. -/
inductive ParseResult : Type where
  | ok : Nat → AMQPFrame → ParseResult
  | incomplete
  | err

/-- The Connection of `connection.rs`.  The crossbeam channel held as
`frame_sender` / `frame_receiver` (the shared outbound FIFO) is embedded as
the list `sharedQueue` (front = next to receive); the `VecDeque`
`priority_frames` as the list `priorityFrames` (front = `pop_front` end).
Frames dispatched to the channels registry (channel id ≠ 0) are recorded in
`channelFrames`; see `Connection.handleFrame`. -/
structure Connection : Type where
  state : ConnectionState
  configuration : Configuration
  vhost : String
  sharedQueue : List AMQPFrame
  credentials : Option Credentials
  priorityFrames : List AMQPFrame
  channelFrames : List AMQPFrame

/-- Default connection (`impl Default for Connection`): state `Initial`,
vhost "/", no credentials, empty queues, default configuration (limits
start at zero, to be negotiated). -/
def Connection.new : Connection :=
  { state := .Initial
  , configuration := ⟨0, 0, 0⟩
  , vhost := "/"
  , sharedQueue := []
  , credentials := none
  , priorityFrames := []
  , channelFrames := [] }

/-- set_credentials from `connection.rs`. -/
def Connection.setCredentials (conn : Connection) (username password : String) : Connection :=
  { conn with credentials := some ⟨username, password⟩ }

/-- set_vhost from `connection.rs`. -/
def Connection.setVhost (conn : Connection) (vhost : String) : Connection :=
  { conn with vhost := vhost }

/-- Modelled from the spec: `Channels::send_frame` (file `channels.rs` is
not part of the examined sources) enqueues the frame onto the shared
outbound channel; the channel id (0 for the handshake bootstrap) selects no
per-channel state for frames sent this way. -/
def Connection.sendFrame (conn : Connection) (_channelId : Nat) (f : AMQPFrame) : Connection :=
  { conn with sharedQueue := conn.sharedQueue ++ [f] }

/-- Modelled from the spec: `Channels::send_method_frame` is the
convenience wrapper wrapping the method into a `Method` frame for
`send_frame`. -/
def Connection.sendMethodFrame (conn : Connection) (channelId : Nat) (c : AMQPClass) : Connection :=
  Connection.sendFrame conn channelId (.Method channelId c)

/-- connect from `connection.rs`: requires state `Initial` (otherwise the
state is overwritten to `Error` and an `Other` error returned), enqueues
the protocol header on channel 0 and transitions to
`Connecting(SentProtocolHeader(options))`. -/
def Connection.connect (conn : Connection) (options : ConnectionProperties) :
    Except IOErrorKind ConnectionState × Connection :=
  match conn.state with
  | .Initial =>
    let conn := Connection.sendFrame conn 0 .ProtocolHeader
    let conn := { conn with state := .Connecting (.SentProtocolHeader options) }
    (.ok conn.state, conn)
  | _ => (.error .Other, { conn with state := .Error })

/-- next_frame from `connection.rs`: pop the front of the priority deque,
falling back to `try_recv` on the shared outbound channel. -/
def Connection.nextFrame (conn : Connection) : Option AMQPFrame × Connection :=
  match conn.priorityFrames with
  | f :: rest => (some f, { conn with priorityFrames := rest })
  | [] =>
    match conn.sharedQueue with
    | f :: rest => (some f, { conn with sharedQueue := rest })
    | [] => (none, conn)

/-- send_preemptive_frame from `connection.rs`: push to the front of the
priority deque. -/
def Connection.sendPreemptiveFrame (conn : Connection) (f : AMQPFrame) : Connection :=
  { conn with priorityFrames := f :: conn.priorityFrames }

/-- requeue_frame from `connection.rs`: push to the back of the priority
deque. -/
def Connection.requeueFrame (conn : Connection) (f : AMQPFrame) : Connection :=
  { conn with priorityFrames := conn.priorityFrames ++ [f] }

/-- has_pending_frames from `connection.rs`. -/
def Connection.hasPendingFrames (conn : Connection) : Bool :=
  !conn.priorityFrames.isEmpty || !conn.sharedQueue.isEmpty

/-- serialize from `connection.rs`: pop one frame via `next_frame` and
generate it into the buffer through the codec `gen` (the buffer being
summarised by its length, which with the frame determines the codec's
outcome).  On codec failure the state becomes `Error`; on `BufferTooSmall`
the frame is additionally requeued and `InvalidData` reported; with no
frame available `WouldBlock` is reported. -/
def Connection.serialize (gen : AMQPFrame → Nat → Except GenError Nat)
    (conn : Connection) (bufLen : Nat) :
    Except IOErrorKind (Nat × ConnectionState) × Connection :=
  match Connection.nextFrame conn with
  | (some nextMsg, conn) =>
    match gen nextMsg bufLen with
    | .ok sz => (.ok (sz, conn.state), conn)
    | .error e =>
      let conn := { conn with state := .Error }
      match e with
      | .BufferTooSmall _ => (.error .InvalidData, Connection.requeueFrame conn nextMsg)
      | .InvalidOffset => (.error .InvalidData, conn)
      | .CustomError => (.error .InvalidData, conn)
      | .NotYetImplemented => (.error .InvalidData, conn)
  | (none, conn) => (.error .WouldBlock, conn)

/-- Modelled from the spec: the implementation identifier string inserted
as the default `product` client property (`env!("CARGO_PKG_NAME")`, build
metadata not part of the examined sources). -/
def cargoPkgName : String := "lapin-async"

/-- Modelled from the spec: the implementation identifier string inserted
as the default `version` client property (`env!("CARGO_PKG_VERSION")`,
build metadata not part of the examined sources). -/
def cargoPkgVersion : String := "0.1.0"

/-- Modelled from the spec: the SASL-PLAIN response of
`amq_protocol::sasl::plain_auth_string` — the byte string
`0x00 | username | 0x00 | password` (a NUL, the username, a NUL, the
password). -/
def nulString : String := String.mk [Char.ofNat 0]

/-- SASL-PLAIN response builder (see `nulString`). -/
def plainAuthString (username password : String) : String :=
  nulString ++ username ++ nulString ++ password

/-- The capabilities sub-table built by `handle_global_method` in the
`SentProtocolHeader` branch: six boolean capabilities, all true. -/
def capabilitiesTable : FieldTable :=
  let t : FieldTable := []
  let t := FieldTable.insert t "publisher_confirms" (.Boolean true)
  let t := FieldTable.insert t "exchange_exchange_bindings" (.Boolean true)
  let t := FieldTable.insert t "basic.nack" (.Boolean true)
  let t := FieldTable.insert t "consumer_cancel_notify" (.Boolean true)
  let t := FieldTable.insert t "connection.blocked" (.Boolean true)
  let t := FieldTable.insert t "authentication_failure_close" (.Boolean true)
  t

/-- The client-properties preparation of `handle_global_method` in the
`SentProtocolHeader` branch: default `product`/`version` when either is
absent, unconditionally set `platform`, then attach the capabilities
sub-table. -/
def startOkClientProperties (cp : FieldTable) : FieldTable :=
  let cp :=
    if !FieldTable.containsKey cp "product" || !FieldTable.containsKey cp "version" then
      let cp := FieldTable.insert cp "product" (.LongString cargoPkgName)
      FieldTable.insert cp "version" (.LongString cargoPkgVersion)
    else cp
  let cp := FieldTable.insert cp "platform" (.LongString "rust")
  FieldTable.insert cp "capabilities" (.FieldTable capabilitiesTable)

/-- The Tune negotiation of `handle_global_method` (the `SentStartOk`
branch), factored out verbatim: the three conditional configuration
updates, each followed (for channel_max and frame_max) by the raising of a
still-zero limit. -/
def tuneNegotiate (cfg : Configuration) (t : TuneMethod) : Configuration :=
  let cfg :=
    if cfg.heartbeat = 0 ∨ (t.heartbeat ≠ 0 ∧ t.heartbeat < cfg.heartbeat) then
      { cfg with heartbeat := t.heartbeat }
    else cfg
  let cfg :=
    if t.channel_max ≠ 0 then
      if cfg.channel_max = 0 ∨ t.channel_max < cfg.channel_max then
        { cfg with channel_max := t.channel_max }
      else cfg
    else cfg
  let cfg := if cfg.channel_max = 0 then { cfg with channel_max := 65535 } else cfg
  let cfg :=
    if t.frame_max ≠ 0 then
      if cfg.frame_max = 0 ∨ t.frame_max < cfg.frame_max then
        { cfg with frame_max := t.frame_max }
      else cfg
    else cfg
  if cfg.frame_max = 0 then { cfg with frame_max := 4294967295 } else cfg

/-- handle_global_method from `connection.rs`: the handshake driver for
connection-class methods received on channel 0.  It returns no value in
Rust; here it returns the updated connection. -/
def Connection.handleGlobalMethod (conn : Connection) (c : AMQPClass) : Connection :=
  match conn.state with
  | .Initial => { conn with state := .Error }
  | .Closed => { conn with state := .Error }
  | .Error => { conn with state := .Error }
  | .Connected => conn
  | .Closing _ => conn
  | .Connecting connectingState =>
    match connectingState with
    | .Initial => { conn with state := .Error }
    | .SentProtocolHeader options =>
      match c with
      | .Connection (.Start _s) =>
        let conn := { conn with state := .Connecting .ReceivedStart }
        let mechanism := ConnectionSASLMechanism.toString options.mechanism
        let locale := options.locale
        let clientProperties := startOkClientProperties options.client_properties
        let savedCreds := conn.credentials.getD Credentials.default
        let conn := { conn with credentials := none }
        let startOk := AMQPClass.Connection (.StartOk
          { client_properties := clientProperties
          , mechanism := mechanism
          , locale := locale
          , response := plainAuthString savedCreds.username savedCreds.password })
        let conn := Connection.sendMethodFrame conn 0 startOk
        { conn with state := .Connecting .SentStartOk }
      | _ => { conn with state := .Error }
    | .ReceivedStart => { conn with state := .Error }
    | .SentStartOk =>
      match c with
      | .Connection (.Tune t) =>
        let conn := { conn with state := .Connecting .ReceivedTune }
        let cfg := tuneNegotiate conn.configuration t
        let conn := { conn with configuration := cfg }
        let tuneOk := AMQPClass.Connection (.TuneOk
          { channel_max := cfg.channel_max
          , frame_max := cfg.frame_max
          , heartbeat := cfg.heartbeat })
        let conn := Connection.sendMethodFrame conn 0 tuneOk
        let conn := { conn with state := .Connecting .SentTuneOk }
        let openMethod := AMQPClass.Connection (.Open { virtual_host := conn.vhost })
        let conn := Connection.sendMethodFrame conn 0 openMethod
        { conn with state := .Connecting .SentOpen }
      | _ => { conn with state := .Error }
    | .ReceivedTune => { conn with state := .Error }
    | .SentTuneOk => { conn with state := .Error }
    | .SentOpen =>
      match c with
      | .Connection .OpenOk => { conn with state := .Connected }
      | _ => { conn with state := .Error }
    | .ReceivedSecure => { conn with state := .Error }
    | .SentSecure => { conn with state := .Error }
    | .ReceivedSecondSecure => { conn with state := .Error }
    | .Error => conn

/-- Modelled from the spec: the crate error type (`error.rs` is not part of
the examined sources), treated as an atom.  At connection level this
embedding never produces one: the channels registry's dispatch is recorded
rather than interpreted (see `Connection.handleFrame`). -/
inductive CrateError : Type where
  | err
deriving DecidableEq

/-- handle_frame from `connection.rs`: dispatch by frame variant.  A
`ProtocolHeader` puts the connection in `Error` (clients never receive
one); `Method` on channel 0 goes to `handleGlobalMethod`; a heartbeat is
observed and ignored.  Frames for the channels registry (method on a
non-zero channel, header, body) are recorded in `channelFrames` — the
registry itself (`channels.rs`) is not part of the examined sources and no
connection-level claim depends on its verdict. -/
def Connection.handleFrame (conn : Connection) (f : AMQPFrame) :
    Except CrateError Unit × Connection :=
  match f with
  | .ProtocolHeader => (.ok (), { conn with state := .Error })
  | .Method channelId method =>
    if channelId = 0 then
      (.ok (), Connection.handleGlobalMethod conn method)
    else
      (.ok (), { conn with channelFrames := conn.channelFrames ++ [f] })
  | .Heartbeat _ => (.ok (), conn)
  | .Header _ _ _ => (.ok (), { conn with channelFrames := conn.channelFrames ++ [f] })
  | .Body _ _ => (.ok (), { conn with channelFrames := conn.channelFrames ++ [f] })

/-- parse from `connection.rs`: run the frame codec `parseFrame` on the
data; on success handle the frame and return the bytes consumed with the
current state, on incomplete input return `(0, state)` unchanged, on a
parse error transition to `Error` and report the failure. -/
def Connection.parse (parseFrame : List Nat → ParseResult) (conn : Connection)
    (data : List Nat) : Except IOErrorKind (Nat × ConnectionState) × Connection :=
  match parseFrame data with
  | .ok consumed f =>
    match Connection.handleFrame conn f with
    | (.ok _, conn) => (.ok (consumed, conn.state), conn)
    | (.error _, conn) => (.error .Other, { conn with state := .Error })
  | .incomplete => (.ok (0, conn.state), conn)
  | .err => (.error .Other, { conn with state := .Error })

/-- Wakers are treated opaquely by the adapter; they are embedded as
atoms. -/
abbrev Waker := Nat

/-- Modelled from the spec: the futures-crate error type (its `error.rs`
is not part of the examined sources), treated as an atom. -/
inductive FutError : Type where
  | err
deriving DecidableEq

/-- Modelled from the spec: `Confirmation<T>` (lapin-async
`confirmation.rs` is not part of the examined sources) — a subscribable
one-shot slot, either pending with its registered subscribers and an
optional value, or resolved with a value or a terminal error. -/
inductive Confirmation (T : Type) : Type where
  | pending : List Waker → Option (Except FutError T) → Confirmation T
  | resolved : Except FutError T → Confirmation T

/-- Modelled from the spec: `subscribe` registers a notifier to be invoked
at resolution; on an already-resolved slot the notifier is invoked
immediately and synchronously (nothing is stored). -/
def Confirmation.subscribe {T : Type} : Confirmation T → Waker → Confirmation T
  | .pending subs v, w => .pending (subs ++ [w]) v
  | .resolved v, _ => .resolved v

/-- Modelled from the spec: `try_wait` is a non-blocking read, producing
the value iff the slot is resolved (typed `Option<T>` as the adapter's
`map(Ok)` requires). -/
def Confirmation.tryWait {T : Type} : Confirmation T → Option T
  | .pending _ _ => none
  | .resolved (.ok v) => some v
  | .resolved (.error _) => none

/-- Modelled from the spec: `into_result` distinguishes a confirmation
born in error (already resolved with an error) from a live one. -/
def Confirmation.intoResult {T : Type} : Confirmation T → Except FutError (Confirmation T)
  | .resolved (.error e) => .error e
  | .resolved (.ok v) => .ok (.resolved (.ok v))
  | .pending subs v => .ok (.pending subs v)

/-- Subscribers currently registered with a confirmation. -/
def Confirmation.subscribers {T : Type} : Confirmation T → List Waker
  | .pending subs _ => subs
  | .resolved _ => []

/-- Poll from the futures library, specialised to `TryFuture`: ready with
a result, or pending. -/
inductive Poll (T : Type) : Type where
  | ready : Except FutError T → Poll T
  | pending : Poll T

/-- ConfirmationFuture from `confirmation.rs` (futures crate): the inner
result distinguishes a live confirmation from a taken-or-pending error
slot, and `subscribed` guards subscription. -/
structure ConfirmationFuture (T : Type) : Type where
  inner : Except (Option FutError) (Confirmation T)
  subscribed : Bool

/-- From impl of `ConfirmationFuture` (futures `confirmation.rs`):
`into_result` + `map_err(Some)`, with the `subscribed` flag cleared. -/
def ConfirmationFuture.fromConfirmation {T : Type} (c : Confirmation T) : ConfirmationFuture T :=
  { inner := (Confirmation.intoResult c).mapError some, subscribed := false }

/-- try_poll from `confirmation.rs` (futures crate).  The result carries
the poll outcome, the updated future, and whether this call invoked
`subscribe` on the confirmation; `none` embeds the panic of polling twice
in the error state (`expect`). -/
def ConfirmationFuture.tryPoll {T : Type} (fut : ConfirmationFuture T) (w : Waker) :
    Option (Poll T × ConfirmationFuture T × Bool) :=
  match fut.inner with
  | .error errSlot =>
    match errSlot with
    | some e => some (.ready (.error e), { fut with inner := .error none }, false)
    | none => none
  | .ok confirmation =>
    let step :=
      if !fut.subscribed then
        let c := Confirmation.subscribe confirmation w
        (c, { fut with inner := .ok c, subscribed := true }, true)
      else
        (confirmation, fut, false)
    match Confirmation.tryWait step.1 with
    | some v => some (.ready (.ok v), step.2.1, step.2.2)
    | none => some (.pending, step.2.1, step.2.2)

/-- Iterated polling: apply `tryPoll` with each waker in turn, collecting
per-call subscribe-invocation flags; a panic stops the sequence. -/
def ConfirmationFuture.tryPollMany {T : Type} (fut : ConfirmationFuture T) :
    List Waker → ConfirmationFuture T × List Bool
  | [] => (fut, [])
  | w :: ws =>
    match ConfirmationFuture.tryPoll fut w with
    | some (_, fut', flag) =>
      let rest := ConfirmationFuture.tryPollMany fut' ws
      (rest.1, flag :: rest.2)
    | none => (fut, [])

/-- Wakers registered with the future's underlying confirmation. -/
def ConfirmationFuture.registeredWakers {T : Type} (fut : ConfirmationFuture T) : List Waker :=
  match fut.inner with
  | .ok c => Confirmation.subscribers c
  | .error _ => []

/-- The Tune negotiation rule exactly as the claim words it, for comparison
with the source's `handleGlobalMethod`: for each of heartbeat, channel_max
and frame_max, a client value of 0 accepts the peer's value, otherwise the
minimum of client and server values is taken; afterwards a still-zero
channel_max is raised to 65535 and a still-zero frame_max to 4294967295. -/
def claimTuneNegotiate (cfg : Configuration) (t : TuneMethod) : Configuration :=
  let hb := if cfg.heartbeat = 0 then t.heartbeat else min cfg.heartbeat t.heartbeat
  let cm := if cfg.channel_max = 0 then t.channel_max else min cfg.channel_max t.channel_max
  let fm := if cfg.frame_max = 0 then t.frame_max else min cfg.frame_max t.frame_max
  { channel_max := if cm = 0 then 65535 else cm
  , frame_max := if fm = 0 then 4294967295 else fm
  , heartbeat := hb }

/-- The per-value negotiation the source implements: a zero on either side
accepts the other side's value (zero results only when both are zero);
otherwise the minimum is taken. -/
def negotiatedValue (client server : Nat) : Nat :=
  if client = 0 then server
  else if server = 0 then client
  else min client server

/-- Post-negotiation raising: a still-zero limit is raised to its default
maximum. -/
def raisedValue (v dflt : Nat) : Nat :=
  if v = 0 then dflt else v

/-- The method each connecting sub-state expects (the guard of the
sub-state's arm in `handle_global_method`): `Start` after the protocol
header, `Tune` after `StartOk`, `OpenOk` after `Open`; no other sub-state
expects any method. -/
def isExpectedMethod : ConnectingState → AMQPClass → Bool
  | .SentProtocolHeader _, .Connection (.Start _) => true
  | .SentStartOk, .Connection (.Tune _) => true
  | .SentOpen, .Connection .OpenOk => true
  | _, _ => false

/-- Connection awaiting Tune with a nonzero configured heartbeat and zero
(let the server choose) channel_max and frame_max. -/
def connAwaitingTune : Connection :=
  { Connection.new with
      state := .Connecting .SentStartOk
    , configuration := ⟨0, 0, 60⟩ }

/-- Connection awaiting Start with default properties. -/
def connAwaitingStart : Connection :=
  { Connection.new with
      state := .Connecting (.SentProtocolHeader ⟨.PLAIN, "en_US", []⟩) }

/-- Codec stub whose buffer is always too small. -/
def genTooSmall : AMQPFrame → Nat → Except GenError Nat :=
  fun _ _ => .error (.BufferTooSmall 1)

/-- Connection with two distinct frames already in the priority deque. -/
def connTwoPriorityFrames : Connection :=
  { Connection.new with priorityFrames := [.Heartbeat 0, .ProtocolHeader] }

/-- Connection sitting in the connecting Error sub-state. -/
def connConnectingErrorSub : Connection :=
  { Connection.new with state := .Connecting .Error }

/-- Connection sitting in the `ReceivedStart` sub-state, which expects no
method. -/
def connReceivedStart : Connection :=
  { Connection.new with state := .Connecting .ReceivedStart }

/-- Connection already connected. -/
def connAlreadyConnected : Connection :=
  { Connection.new with state := .Connected }

/-- C7: outbound queue discipline — `next_frame` returns the front of the
priority deque when non-empty, otherwise a frame from the shared outbound
channel, otherwise none; `requeue_frame` pushes to the back of the
priority deque and `send_preemptive_frame` to the front; and on a
connection whose priority deque is empty, `requeue_frame f` followed by
`next_frame` yields `some f`. -/
theorem outbound_queue_discipline (conn : Connection) (f : AMQPFrame) :
    (∀ p rest, conn.priorityFrames = p :: rest →
      Connection.nextFrame conn = (some p, { conn with priorityFrames := rest })) ∧
    (conn.priorityFrames = [] → ∀ s rest, conn.sharedQueue = s :: rest →
      Connection.nextFrame conn = (some s, { conn with sharedQueue := rest })) ∧
    (conn.priorityFrames = [] → conn.sharedQueue = [] →
      Connection.nextFrame conn = (none, conn)) ∧
    (Connection.requeueFrame conn f).priorityFrames = conn.priorityFrames ++ [f] ∧
    (Connection.sendPreemptiveFrame conn f).priorityFrames = f :: conn.priorityFrames ∧
    (conn.priorityFrames = [] →
      (Connection.nextFrame (Connection.requeueFrame conn f)).1 = some f) := by
  refine ⟨?_, ?_, ?_, rfl, rfl, ?_⟩
  · intro p rest hp
    simp [Connection.nextFrame, hp]
  · intro hp s rest hs
    simp [Connection.nextFrame, hp, hs]
  · intro hp hs
    simp [Connection.nextFrame, hp, hs]
  · intro hp
    simp [Connection.nextFrame, Connection.requeueFrame, hp]

/-- Witness for C7 at the fresh connection and a heartbeat frame. -/
theorem outbound_queue_discipline_witness :
    (Connection.nextFrame (Connection.requeueFrame Connection.new (.Heartbeat 0))).1 =
      some (AMQPFrame.Heartbeat 0) ∧
    Connection.nextFrame Connection.new = (none, Connection.new) := by
  have h := outbound_queue_discipline Connection.new (.Heartbeat 0)
  exact ⟨h.2.2.2.2.2 rfl, h.2.2.1 rfl rfl⟩

/-- C8: for every connection state, `handle_frame` on a `ProtocolHeader`
frame transitions the connection to `ConnectionState::Error` (a client
never receives a protocol header); the method itself reports no error. -/
theorem protocol_header_frame_error (conn : Connection) :
    Connection.handleFrame conn .ProtocolHeader = (.ok (), { conn with state := .Error }) ∧
    (Connection.handleFrame conn .ProtocolHeader).2.state = .Error :=
  ⟨rfl, rfl⟩

/-- C9: `connect` on a connection whose state is not `Initial` returns an
error and additionally overwrites the state to `Error` before returning —
the rest of the connection is kept but the previous state (even
`Connected`) is destroyed. -/
theorem connect_nonatomic_error (conn : Connection) (options : ConnectionProperties)
    (h : conn.state ≠ .Initial) :
    Connection.connect conn options = (.error .Other, { conn with state := .Error }) ∧
    (Connection.connect conn options).2.state = .Error := by
  rcases conn with ⟨st, cfg, vh, sq, cr, pf, chf⟩
  cases st
  case Initial => exact absurd rfl h
  all_goals exact ⟨rfl, rfl⟩

/-- Witness for C9 at a connected connection. -/
theorem connect_nonatomic_error_witness :
    Connection.connect connAlreadyConnected ⟨.PLAIN, "en_US", []⟩ =
      (.error .Other, { connAlreadyConnected with state := .Error }) := by
  exact (connect_nonatomic_error connAlreadyConnected ⟨.PLAIN, "en_US", []⟩
    (fun hh => ConnectionState.noConfusion hh)).1

/-- C5: non-fatal conditions leave the connection unchanged — on any byte
slice the frame parser reports incomplete, `parse` returns `Ok (0, state)`
with the whole connection unmodified; and on a connection with no pending
frame, `serialize` reports `WouldBlock` with the connection unmodified. -/
theorem nonfatal_leaves_state_unchanged (parseFrame : List Nat → ParseResult)
    (gen : AMQPFrame → Nat → Except GenError Nat) (conn : Connection)
    (data : List Nat) (bufLen : Nat) :
    (parseFrame data = .incomplete →
      Connection.parse parseFrame conn data = (.ok (0, conn.state), conn)) ∧
    (conn.priorityFrames = [] → conn.sharedQueue = [] →
      Connection.serialize gen conn bufLen = (.error .WouldBlock, conn)) := by
  constructor
  · intro h
    simp [Connection.parse, h]
  · intro hp hs
    simp [Connection.serialize, Connection.nextFrame, hp, hs]

/-- Witness for C5 at the fresh connection with a parser reporting
incomplete and a trivial codec. -/
theorem nonfatal_leaves_state_unchanged_witness :
    Connection.parse (fun _ => ParseResult.incomplete) Connection.new [] =
      (.ok (0, ConnectionState.Initial), Connection.new) ∧
    Connection.serialize (fun _ _ => .ok 0) Connection.new 0 =
      (.error .WouldBlock, Connection.new) := by
  have h := nonfatal_leaves_state_unchanged (fun _ => ParseResult.incomplete)
    (fun _ _ => .ok 0) Connection.new [] 0
  exact ⟨h.1 rfl, h.2 rfl rfl⟩

/-- C2: in `Connecting(SentProtocolHeader(options))`, receiving
`Connection.Start` emits on the outbound queue a `Connection.StartOk`
whose SASL-PLAIN response is the byte string NUL-username-NUL-password
built from the stored credentials (guest/guest when unset), clears the
credentials slot, and moves the state to `Connecting(SentStartOk)`. -/
theorem start_ok_sasl_response (conn : Connection) (options : ConnectionProperties)
    (s : StartMethod) (h : conn.state = .Connecting (.SentProtocolHeader options)) :
    (Connection.handleGlobalMethod conn (.Connection (.Start s))).sharedQueue =
      conn.sharedQueue ++
        [AMQPFrame.Method 0 (.Connection (.StartOk
          { client_properties := startOkClientProperties options.client_properties
          , mechanism := "PLAIN"
          , locale := options.locale
          , response := nulString ++ (conn.credentials.getD Credentials.default).username
              ++ nulString ++ (conn.credentials.getD Credentials.default).password }))] ∧
    (Connection.handleGlobalMethod conn (.Connection (.Start s))).credentials = none ∧
    (Connection.handleGlobalMethod conn (.Connection (.Start s))).state =
      .Connecting .SentStartOk := by
  rcases conn with ⟨st, cfg, vh, sq, cr, pf, chf⟩
  simp only at h
  subst h
  rcases options with ⟨mech, loc, cp⟩
  cases mech
  exact ⟨rfl, rfl, rfl⟩

/-- Witness for C2 at a connection awaiting Start with no stored
credentials: the response defaults to guest/guest. -/
theorem start_ok_sasl_response_witness :
    (Connection.handleGlobalMethod connAwaitingStart
      (.Connection (.Start ⟨"PLAIN", "en_US"⟩))).credentials = none ∧
    (Connection.handleGlobalMethod connAwaitingStart
      (.Connection (.Start ⟨"PLAIN", "en_US"⟩))).sharedQueue =
      [AMQPFrame.Method 0 (.Connection (.StartOk
        { client_properties := startOkClientProperties []
        , mechanism := "PLAIN"
        , locale := "en_US"
        , response := nulString ++ "guest" ++ nulString ++ "guest" }))] := by
  have h := start_ok_sasl_response connAwaitingStart ⟨.PLAIN, "en_US", []⟩
    ⟨"PLAIN", "en_US"⟩ rfl
  exact ⟨h.2.1, h.1⟩

/-- C3: in `Connecting(SentStartOk)`, receiving `Connection.Tune` enqueues
exactly two frames on the outbound queue, in order `Connection.TuneOk`
with the negotiated limits then `Connection.Open` with the configured
virtual host, leaving the priority deque untouched, and moves the state to
`Connecting(SentOpen)`. -/
theorem tune_emits_tuneok_then_open (conn : Connection) (t : TuneMethod)
    (h : conn.state = .Connecting .SentStartOk) :
    (Connection.handleGlobalMethod conn (.Connection (.Tune t))).sharedQueue =
      conn.sharedQueue ++
        [ AMQPFrame.Method 0 (.Connection (.TuneOk
            { channel_max :=
                (Connection.handleGlobalMethod conn (.Connection (.Tune t))).configuration.channel_max
            , frame_max :=
                (Connection.handleGlobalMethod conn (.Connection (.Tune t))).configuration.frame_max
            , heartbeat :=
                (Connection.handleGlobalMethod conn (.Connection (.Tune t))).configuration.heartbeat }))
        , AMQPFrame.Method 0 (.Connection (.Open { virtual_host := conn.vhost })) ] ∧
    (Connection.handleGlobalMethod conn (.Connection (.Tune t))).priorityFrames =
      conn.priorityFrames ∧
    (Connection.handleGlobalMethod conn (.Connection (.Tune t))).state =
      .Connecting .SentOpen := by
  rcases conn with ⟨st, cfg, vh, sq, cr, pf, chf⟩
  simp only at h
  subst h
  refine ⟨?_, rfl, rfl⟩
  simp [Connection.handleGlobalMethod, Connection.sendMethodFrame, Connection.sendFrame]

/-- Witness for C3 at a connection awaiting Tune, with the server offering
`{channel_max := 2047, frame_max := 131072, heartbeat := 60}`. -/
theorem tune_emits_tuneok_then_open_witness :
    (Connection.handleGlobalMethod connAwaitingTune
      (.Connection (.Tune ⟨2047, 131072, 60⟩))).sharedQueue =
      [ AMQPFrame.Method 0 (.Connection (.TuneOk
          { channel_max :=
              (Connection.handleGlobalMethod connAwaitingTune
                (.Connection (.Tune ⟨2047, 131072, 60⟩))).configuration.channel_max
          , frame_max :=
              (Connection.handleGlobalMethod connAwaitingTune
                (.Connection (.Tune ⟨2047, 131072, 60⟩))).configuration.frame_max
          , heartbeat :=
              (Connection.handleGlobalMethod connAwaitingTune
                (.Connection (.Tune ⟨2047, 131072, 60⟩))).configuration.heartbeat }))
      , AMQPFrame.Method 0 (.Connection (.Open { virtual_host := "/" })) ] ∧
    (Connection.handleGlobalMethod connAwaitingTune
      (.Connection (.Tune ⟨2047, 131072, 60⟩))).state = .Connecting .SentOpen := by
  have h := tune_emits_tuneok_then_open connAwaitingTune ⟨2047, 131072, 60⟩ rfl
  exact ⟨h.1, h.2.2⟩

/-- Heartbeat negotiation of `tuneNegotiate`: either-side-zero accepts the
other side, otherwise the minimum (never raised afterwards). -/
theorem tuneNegotiate_heartbeat (cfg : Configuration) (t : TuneMethod) :
    (tuneNegotiate cfg t).heartbeat = negotiatedValue cfg.heartbeat t.heartbeat := by
  rcases cfg with ⟨cm, fm, hb⟩
  rcases t with ⟨tcm, tfm, thb⟩
  simp only [tuneNegotiate, negotiatedValue, apply_ite Configuration.heartbeat, ite_self]
  split_ifs <;> omega

/-- Channel-max negotiation of `tuneNegotiate`: either-side-zero accepts
the other side, otherwise the minimum; a still-zero result is raised to
65535. -/
theorem tuneNegotiate_channel_max (cfg : Configuration) (t : TuneMethod) :
    (tuneNegotiate cfg t).channel_max =
      raisedValue (negotiatedValue cfg.channel_max t.channel_max) 65535 := by
  rcases cfg with ⟨cm, fm, hb⟩
  rcases t with ⟨tcm, tfm, thb⟩
  simp only [tuneNegotiate, negotiatedValue, raisedValue,
    apply_ite Configuration.channel_max, ite_self]
  split_ifs <;> omega

/-- Frame-max negotiation of `tuneNegotiate`: either-side-zero accepts the
other side, otherwise the minimum; a still-zero result is raised to
4294967295. -/
theorem tuneNegotiate_frame_max (cfg : Configuration) (t : TuneMethod) :
    (tuneNegotiate cfg t).frame_max =
      raisedValue (negotiatedValue cfg.frame_max t.frame_max) 4294967295 := by
  rcases cfg with ⟨cm, fm, hb⟩
  rcases t with ⟨tcm, tfm, thb⟩
  simp only [tuneNegotiate, negotiatedValue, raisedValue,
    apply_ite Configuration.frame_max, ite_self]
  split_ifs <;> omega

/-- C1 counterexample: with a configured heartbeat of 60 and a server Tune
of all zeroes, the code keeps heartbeat 60 while the claim's rule
(client 0 accepts peer, otherwise the minimum) would yield heartbeat 0, so
the resulting configuration differs from the claim's prediction. -/
theorem tune_negotiation_claim_counterexample :
    (Connection.handleGlobalMethod connAwaitingTune
        (.Connection (.Tune ⟨0, 0, 0⟩))).configuration ≠
      claimTuneNegotiate connAwaitingTune.configuration ⟨0, 0, 0⟩ := by
  decide

/-- C1 (amended): on `Connection.Tune` in state `Connecting(SentStartOk)`,
each of heartbeat, channel_max and frame_max is negotiated by: a zero on
either side accepts the other side's value (zero results only when both
are zero), otherwise the minimum of client and server values; afterwards a
still-zero channel_max is raised to 65535 and a still-zero frame_max to
4294967295 (heartbeat is not raised).  In particular client `{0,0,0}`
against server Tune `{0,0,0}` yields `{65535, 4294967295, 0}`. -/
theorem tune_negotiation_amended (conn : Connection) (t : TuneMethod)
    (h : conn.state = .Connecting .SentStartOk) :
    (Connection.handleGlobalMethod conn (.Connection (.Tune t))).configuration.channel_max =
      raisedValue (negotiatedValue conn.configuration.channel_max t.channel_max) 65535 ∧
    (Connection.handleGlobalMethod conn (.Connection (.Tune t))).configuration.frame_max =
      raisedValue (negotiatedValue conn.configuration.frame_max t.frame_max) 4294967295 ∧
    (Connection.handleGlobalMethod conn (.Connection (.Tune t))).configuration.heartbeat =
      negotiatedValue conn.configuration.heartbeat t.heartbeat ∧
    (Connection.handleGlobalMethod { conn with configuration := ⟨0, 0, 0⟩ }
        (.Connection (.Tune ⟨0, 0, 0⟩))).configuration = ⟨65535, 4294967295, 0⟩ := by
  rcases conn with ⟨st, cfg, vh, sq, cr, pf, chf⟩
  simp only at h
  subst h
  refine ⟨tuneNegotiate_channel_max cfg t, tuneNegotiate_frame_max cfg t,
    tuneNegotiate_heartbeat cfg t, ?_⟩
  show tuneNegotiate ⟨0, 0, 0⟩ ⟨0, 0, 0⟩ = (⟨65535, 4294967295, 0⟩ : Configuration)
  decide

/-- Witness for C1 at the connection awaiting Tune (client heartbeat 60,
limits 0) against server Tune `{2047, 131072, 0}`. -/
theorem tune_negotiation_amended_witness :
    (Connection.handleGlobalMethod connAwaitingTune
        (.Connection (.Tune ⟨2047, 131072, 0⟩))).configuration.channel_max =
      raisedValue (negotiatedValue connAwaitingTune.configuration.channel_max 2047) 65535 ∧
    (Connection.handleGlobalMethod connAwaitingTune
        (.Connection (.Tune ⟨2047, 131072, 0⟩))).configuration.heartbeat =
      negotiatedValue connAwaitingTune.configuration.heartbeat 0 := by
  have h := tune_negotiation_amended connAwaitingTune ⟨2047, 131072, 0⟩ rfl
  exact ⟨h.1, h.2.2.1⟩

/-- C4 counterexample: with two distinct frames already in the priority
deque and a buffer too small for the popped frame (a heartbeat), serialize
requeues the heartbeat at the back, so the subsequent `next_frame` yields
the other frame (the protocol header), not the original one. -/
theorem serialize_requeue_order_counterexample :
    Connection.serialize genTooSmall connTwoPriorityFrames 0 =
      (.error .InvalidData,
        { connTwoPriorityFrames with
            state := .Error
          , priorityFrames := [.ProtocolHeader, .Heartbeat 0] }) ∧
    (Connection.nextFrame
        (Connection.serialize genTooSmall connTwoPriorityFrames 0).2).1 =
      some AMQPFrame.ProtocolHeader ∧
    some AMQPFrame.ProtocolHeader ≠ some (AMQPFrame.Heartbeat 0) := by
  refine ⟨rfl, rfl, ?_⟩
  intro h
  exact AMQPFrame.noConfusion (Option.some.inj h)

/-- C4 (amended): when the codec reports the buffer too small for the
pending frame, `serialize` returns the `InvalidData` error (no byte count
is reported written), requeues the entire frame at the back of the
priority deque and sets the state to `Error`; a subsequent `next_frame`
yields the frame again provided the priority deque held no other frame
(otherwise those frames come first). -/
theorem serialize_buffer_too_small_requeue
    (gen : AMQPFrame → Nat → Except GenError Nat) (conn conn₁ : Connection)
    (f : AMQPFrame) (bufLen off : Nat)
    (hnext : Connection.nextFrame conn = (some f, conn₁))
    (hgen : gen f bufLen = .error (.BufferTooSmall off)) :
    Connection.serialize gen conn bufLen =
      (.error .InvalidData,
        { conn₁ with state := .Error, priorityFrames := conn₁.priorityFrames ++ [f] }) ∧
    (conn₁.priorityFrames = [] →
      (Connection.nextFrame (Connection.serialize gen conn bufLen).2).1 = some f) := by
  have hser : Connection.serialize gen conn bufLen =
      (.error .InvalidData,
        { conn₁ with state := .Error, priorityFrames := conn₁.priorityFrames ++ [f] }) := by
    simp [Connection.serialize, hnext, hgen, Connection.requeueFrame]
  refine ⟨hser, ?_⟩
  intro hp
  rw [hser]
  simp [Connection.nextFrame, hp]

/-- Witness for C4 at a connection holding a single pending heartbeat
frame and the always-too-small codec. -/
theorem serialize_buffer_too_small_requeue_witness :
    Connection.serialize genTooSmall
        (Connection.requeueFrame Connection.new (.Heartbeat 0)) 0 =
      (.error .InvalidData,
        { Connection.new with state := .Error, priorityFrames := [.Heartbeat 0] }) ∧
    (Connection.nextFrame
        (Connection.serialize genTooSmall
          (Connection.requeueFrame Connection.new (.Heartbeat 0)) 0).2).1 =
      some (AMQPFrame.Heartbeat 0) := by
  have h := serialize_buffer_too_small_requeue genTooSmall
    (Connection.requeueFrame Connection.new (.Heartbeat 0)) Connection.new
    (.Heartbeat 0) 0 1 rfl rfl
  exact ⟨h.1, h.2 rfl⟩

/-- C6 counterexample: in the connecting sub-state `Error`, an unexpected
method (here `Connection.Start`) is only logged — the state stays
`Connecting(Error)` and does not become `ConnectionState::Error`. -/
theorem connecting_error_substate_counterexample :
    (Connection.handleGlobalMethod connConnectingErrorSub
        (.Connection (.Start ⟨"PLAIN", "en_US"⟩))).state =
      ConnectionState.Connecting .Error ∧
    (Connection.handleGlobalMethod connConnectingErrorSub
        (.Connection (.Start ⟨"PLAIN", "en_US"⟩))).state ≠ ConnectionState.Error := by
  refine ⟨rfl, ?_⟩
  intro h
  exact ConnectionState.noConfusion h

/-- C6 (amended): in every connecting sub-state other than
`ConnectingState::Error`, a connection-level method that is not the one
the sub-state expects makes `handle_global_method` transition the state to
`ConnectionState::Error`; `handle_global_method` itself returns no error,
so the failure is surfaced through the state: `handle_frame` returns Ok
with the connection in `Error`, and `parse` hands the `Error` state back
to its caller inside its Ok result.  In the `ConnectingState::Error`
sub-state the method is only logged and the state is left unchanged. -/
theorem unexpected_method_transitions_error (conn : Connection)
    (cs : ConnectingState) (c : AMQPClass) (h : conn.state = .Connecting cs)
    (hcs : cs ≠ .Error) (hm : isExpectedMethod cs c = false) :
    (Connection.handleGlobalMethod conn c).state = .Error ∧
    Connection.handleFrame conn (.Method 0 c) =
      (.ok (), Connection.handleGlobalMethod conn c) ∧
    ∀ (parseFrame : List Nat → ParseResult) (data : List Nat) (n : Nat),
      parseFrame data = .ok n (.Method 0 c) →
      (Connection.parse parseFrame conn data).1 = .ok (n, .Error) := by
  have key : (Connection.handleGlobalMethod conn c).state = .Error := by
    rcases conn with ⟨st, cfg, vh, sq, cr, pf, chf⟩
    simp only at h
    subst h
    cases cs with
    | Error => exact absurd rfl hcs
    | SentProtocolHeader options =>
      cases c with
      | OtherClass => rfl
      | Connection m =>
        cases m <;> first
          | rfl
          | exact absurd hm (by simp [isExpectedMethod])
    | SentStartOk =>
      cases c with
      | OtherClass => rfl
      | Connection m =>
        cases m <;> first
          | rfl
          | exact absurd hm (by simp [isExpectedMethod])
    | SentOpen =>
      cases c with
      | OtherClass => rfl
      | Connection m =>
        cases m <;> first
          | rfl
          | exact absurd hm (by simp [isExpectedMethod])
    | Initial => rfl
    | ReceivedStart => rfl
    | ReceivedTune => rfl
    | SentTuneOk => rfl
    | ReceivedSecure => rfl
    | SentSecure => rfl
    | ReceivedSecondSecure => rfl
  have hf : Connection.handleFrame conn (.Method 0 c) =
      (.ok (), Connection.handleGlobalMethod conn c) := by
    simp [Connection.handleFrame]
  refine ⟨key, hf, ?_⟩
  intro parseFrame data n hp
  simp [Connection.parse, hp, hf, key]

/-- Witness for C6 in the `ReceivedStart` sub-state receiving
`Connection.OpenOk`. -/
theorem unexpected_method_transitions_error_witness :
    (Connection.handleGlobalMethod connReceivedStart (.Connection .OpenOk)).state =
      ConnectionState.Error := by
  exact (unexpected_method_transitions_error connReceivedStart .ReceivedStart
    (.Connection .OpenOk) rfl (fun hh => ConnectingState.noConfusion hh) rfl).1

/-- Once the `subscribed` flag is set, further polls never touch the
confirmation: the future is returned unchanged and no poll invokes
`subscribe`. -/
theorem tryPollMany_after_subscribed {T : Type} (fut : ConfirmationFuture T)
    (d : Confirmation T) (h1 : fut.subscribed = true) (h2 : fut.inner = .ok d)
    (ws : List Waker) :
    ConfirmationFuture.tryPollMany fut ws = (fut, List.replicate ws.length false) := by
  induction ws with
  | nil => rfl
  | cons w ws ih =>
    have hpoll : ConfirmationFuture.tryPoll fut w =
        some (match Confirmation.tryWait d with
              | some v => Poll.ready (.ok v)
              | none => Poll.pending,
              fut, false) := by
      cases hd : Confirmation.tryWait d <;>
        simp [ConfirmationFuture.tryPoll, h2, h1, hd]
    simp only [ConfirmationFuture.tryPollMany, hpoll, ih, List.length_cons,
      List.replicate_succ]

/-- C10: a `ConfirmationFuture` built from a live (non-error) confirmation
invokes `subscribe` at most once across any sequence of `try_poll` calls —
exactly on the first poll, guarded by the `subscribed` flag — so wakers
from later polls are never registered with the confirmation: every
registered waker is either one registered before the future existed or the
first poll's waker. -/
theorem confirmation_future_subscribe_once {T : Type} (c liveC : Confirmation T)
    (ws : List Waker)
    (hlive : (ConfirmationFuture.fromConfirmation c).inner = .ok liveC) :
    (ConfirmationFuture.tryPollMany (ConfirmationFuture.fromConfirmation c) ws).2.count true ≤ 1 ∧
    (ws = [] →
      (ConfirmationFuture.tryPollMany (ConfirmationFuture.fromConfirmation c) ws).2 = []) ∧
    (∀ w0 rest, ws = w0 :: rest →
      (ConfirmationFuture.tryPollMany (ConfirmationFuture.fromConfirmation c) ws).2 =
        true :: List.replicate rest.length false) ∧
    ∀ w, w ∈ ConfirmationFuture.registeredWakers
        (ConfirmationFuture.tryPollMany (ConfirmationFuture.fromConfirmation c) ws).1 →
      w ∈ Confirmation.subscribers liveC ++ ws.take 1 := by
  have hsub : (ConfirmationFuture.fromConfirmation c).subscribed = false := rfl
  cases ws with
  | nil =>
    refine ⟨by simp [ConfirmationFuture.tryPollMany], fun _ => rfl, ?_, ?_⟩
    · intro w0 rest hws
      exact List.noConfusion hws
    · intro w hw
      simp only [ConfirmationFuture.tryPollMany] at hw
      simp only [ConfirmationFuture.registeredWakers, hlive] at hw
      simp [hw]
  | cons w0 rest =>
    have hpoll : ConfirmationFuture.tryPoll (ConfirmationFuture.fromConfirmation c) w0 =
        some (match Confirmation.tryWait (Confirmation.subscribe liveC w0) with
              | some v => Poll.ready (.ok v)
              | none => Poll.pending,
              ⟨.ok (Confirmation.subscribe liveC w0), true⟩, true) := by
      cases hd : Confirmation.tryWait (Confirmation.subscribe liveC w0) <;>
        simp [ConfirmationFuture.tryPoll, hlive, hsub, hd]
    have hafter := tryPollMany_after_subscribed
      (⟨.ok (Confirmation.subscribe liveC w0), true⟩ : ConfirmationFuture T)
      (Confirmation.subscribe liveC w0) rfl rfl rest
    have hmany : ConfirmationFuture.tryPollMany
        (ConfirmationFuture.fromConfirmation c) (w0 :: rest) =
        (⟨.ok (Confirmation.subscribe liveC w0), true⟩,
          true :: List.replicate rest.length false) := by
      simp only [ConfirmationFuture.tryPollMany, hpoll, hafter]
    rw [hmany]
    refine ⟨?_, ?_, ?_, ?_⟩
    · simp [List.count_cons, List.count_replicate]
    · intro h
      exact List.noConfusion h
    · intro w1 rest1 hws
      injection hws with hw1 hr1
      rw [hr1]
    · intro w hw
      cases liveC with
      | pending subs v =>
        simp [ConfirmationFuture.registeredWakers, Confirmation.subscribe,
          Confirmation.subscribers] at hw ⊢
        tauto
      | resolved v =>
        simp [ConfirmationFuture.registeredWakers, Confirmation.subscribe,
          Confirmation.subscribers] at hw

/-- Witness for C10: a live pending confirmation over `Nat` with no prior
subscribers, polled once with waker 7. -/
theorem confirmation_future_subscribe_once_witness :
    (ConfirmationFuture.tryPollMany
        (ConfirmationFuture.fromConfirmation
          (Confirmation.pending ([] : List Waker) (none : Option (Except FutError Nat))))
        [7]).2.count true ≤ 1 ∧
    (ConfirmationFuture.tryPollMany
        (ConfirmationFuture.fromConfirmation
          (Confirmation.pending ([] : List Waker) (none : Option (Except FutError Nat))))
        [7]).2 = [true] := by
  have h := confirmation_future_subscribe_once
    (Confirmation.pending ([] : List Waker) (none : Option (Except FutError Nat)))
    (Confirmation.pending [] none) [7] rfl
  refine ⟨h.1, ?_⟩
  have h2 := h.2.2.1 7 [] rfl
  simpa using h2
